import Mathlib

/-!
Verification development for the streaming client, organization helpers and
JSON config reader of this repository. Definitions are shallow embeddings of
the TypeScript source under `src/`; code whose implementation is not under
`src/` (only its tests or callers are) is modelled from the specification and
marked as such in its doc comment.
-/

set_option autoImplicit false

/-- Modelled from the spec: the `Time` utility (`src/lib/util/time`) is not
under `src/`; the streaming client only needs a quantity together with a unit
and the derived `milliseconds` value. -/
inductive TIME_UNIT where
  | MINUTES
  | SECONDS
  | MILLISECONDS
deriving DecidableEq

/-- Modelled from the spec: a duration as constructed by `new Time(q, unit)`. -/
structure Time where
  quantity : Nat
  unit : TIME_UNIT
deriving DecidableEq

/-- Modelled from the spec: `Time.milliseconds`, the duration in milliseconds. -/
def Time.milliseconds (t : Time) : Nat :=
  match t.unit with
  | TIME_UNIT.MINUTES => t.quantity * 60000
  | TIME_UNIT.SECONDS => t.quantity * 1000
  | TIME_UNIT.MILLISECONDS => t.quantity

/-- An `SfdxError` as far as the claims are concerned: a message and the
stable `name` discriminator (`src/lib/sfdxError`, constructed throughout
`streamingClient.ts` as `new SfdxError(message, name)`). -/
structure SfdxError where
  message : String
  name : String
deriving DecidableEq

/-- The data of `StreamingOptions<T>` relevant to the claims
(`streamingClient.ts` lines 62-77): the channel, api version and the two
timeout durations. The `org`, `streamProcessor` and `streamingImpl` members
are kept abstract (presence flags / separate functions). -/
structure StreamingOptionsData where
  apiVersion : String
  channel : String
  subscribeTimeout : Time
  handshakeTimeout : Time
deriving DecidableEq

/-- Character-list prefix test, used to embed the prefix check of
`_.startsWith`. -/
def charsPrefix : List Char → List Char → Bool
  | [], _ => true
  | _ :: _, [] => false
  | c :: cs, d :: ds => c = d && charsPrefix cs ds

/-- The lodash `_.startsWith(s, pre)` call used at `streamingClient.ts`
line 122: whether `s` starts with the prefix `pre`. -/
def lodashStartsWith (s : String) (pre : String) : Bool :=
  charsPrefix pre.toList s.toList

/-- The net effect of the `DefaultStreamingOptions` constructor on the stored
`apiVersion` (`streamingClient.ts` lines 120-124): the argument is stored,
then overwritten with `36.0` when the `apiVersion` argument starts with
`/system`. -/
def storedApiVersion (apiVersion : String) : String :=
  if lodashStartsWith apiVersion "/system" then "36.0" else apiVersion

/-- The `DefaultStreamingOptions` constructor (`streamingClient.ts` lines
101-141). The `org` and `streamProcessor` arguments are object references in
the source; only their truthiness is inspected (lines 103-117), so they are
embedded as presence flags. Returns the stored options data; the default
timeouts are set at lines 128-129. -/
def mkDefaultStreamingOptions (orgPresent : Bool) (apiVersion : String)
    (channel : String) (streamProcessorPresent : Bool) :
    Except SfdxError StreamingOptionsData :=
  if apiVersion = "" then
    Except.error { message := "Missing apiVersion", name := "MissingArg" }
  else if streamProcessorPresent = false then
    Except.error { message := "Missing stream processor", name := "MissingArg" }
  else if orgPresent = false then
    Except.error { message := "Missing org", name := "MissingArg" }
  else if channel = "" then
    Except.error { message := "Missing streaming channel", name := "MissingArg" }
  else
    Except.ok
      { apiVersion := storedApiVersion apiVersion
        channel := channel
        subscribeTimeout := { quantity := 3, unit := TIME_UNIT.MINUTES }
        handshakeTimeout := { quantity := 1, unit := TIME_UNIT.MINUTES } }

/-- The string values of the `StreamingTimeoutError` enum
(`streamingClient.ts` lines 151-154). -/
inductive StreamingTimeoutError where
  | HANDSHAKE
  | SUBSCRIBE
deriving DecidableEq

/-- String value carried by each `StreamingTimeoutError` member. -/
def StreamingTimeoutError.tag : StreamingTimeoutError → String
  | StreamingTimeoutError.HANDSHAKE => "handshake"
  | StreamingTimeoutError.SUBSCRIBE => "subscribe"

/-- The `StreamingConnectionState` enum (`streamingClient.ts` lines 144-146). -/
inductive StreamingConnectionState where
  | CONNECTED
deriving DecidableEq

/-- Delay passed to `setTimeout` in `handshake()` (`streamingClient.ts`
line 278): `this.options.handshakeTimeout.milliseconds`. -/
def handshakeTimerDelayMs (o : StreamingOptionsData) : Nat :=
  o.handshakeTimeout.milliseconds

/-- Delay passed to `setTimeout` in `subscribe()` (`streamingClient.ts`
line 312). The source reads `this.options.handshakeTimeout.milliseconds`
there — the `subscribeTimeout` option is never consulted by `subscribe`. -/
def subscribeTimerDelayMs (o : StreamingOptionsData) : Nat :=
  o.handshakeTimeout.milliseconds

/-- The faye dispatcher as inspected by `disconnect()`
(`streamingClient.ts` lines 377-384): only its `clientId` field matters. -/
structure Dispatcher where
  clientId : Option String
deriving DecidableEq

/-- Which low-level action `StreamingClient.disconnect` performs. -/
inductive DisconnectAction where
  | closeDispatcher
  | clientDisconnect
  | noAction
deriving DecidableEq

/-- `StreamingClient.disconnect` (`streamingClient.ts` lines 371-385): when a
`_dispatcher` exists and has no `clientId`, close the dispatcher directly;
when it has a `clientId`, call the normal `cometClient.disconnect()`; when no
dispatcher exists, do nothing. -/
def disconnectAction (dispatcher : Option Dispatcher) : DisconnectAction :=
  match dispatcher with
  | Option.none => DisconnectAction.noAction
  | Option.some d =>
    match d.clientId with
    | Option.none => DisconnectAction.closeDispatcher
    | Option.some _ => DisconnectAction.clientDisconnect

/-- Which of the two racing events settles the `handshake()` promise: the
underlying handshake callback, or the timer firing first. -/
inductive HandshakeSignal where
  | successArrives
  | timerFires
deriving DecidableEq

/-- Observable outcome of `handshake()` once settled. -/
structure HandshakeOutcome where
  result : Except SfdxError StreamingConnectionState
  timerCleared : Bool
  disconnect : DisconnectAction

/-- `StreamingClient.handshake` (`streamingClient.ts` lines 267-287). On the
handshake callback: clear the timer and resolve `CONNECTED` (lines 280-285).
On timer fire: build a timeout error, set its `name` to the `HANDSHAKE` tag
(line 275), run `doTimeout` — which disconnects and clears the timer
(lines 364-369) — and reject with that error. -/
def handshakeOutcome (dispatcher : Option Dispatcher) (sig : HandshakeSignal) :
    HandshakeOutcome :=
  match sig with
  | HandshakeSignal.successArrives =>
    { result := Except.ok StreamingConnectionState.CONNECTED
      timerCleared := true
      disconnect := DisconnectAction.noAction }
  | HandshakeSignal.timerFires =>
    { result := Except.error
        { message := "genericHandshakeTimeoutMessage"
          name := StreamingTimeoutError.tag StreamingTimeoutError.HANDSHAKE }
      timerCleared := true
      disconnect := disconnectAction dispatcher }

/-- `StatusResult<T>` (`src/lib/status/client`, referenced at
`streamingClient.ts` line 74): a completion indicator plus optional payload. -/
structure StatusResult (T : Type) where
  completed : Bool
  payload : Option T
deriving DecidableEq

/-- How the outer `subscribe` promise is settled, if at all. -/
inductive SubscribeResolution (T : Type) where
  | resolved (payload : Option T)
  | rejected (e : SfdxError)
deriving DecidableEq

/-- Observable effect of delivering one inbound message to the subscribed
channel. `resolution = none` means the outer promise stays pending. -/
structure MessageOutcome (T : Type) where
  timerCleared : Bool
  disconnected : Bool
  resolution : Option (SubscribeResolution T)
deriving DecidableEq

/-- The message callback registered by `subscribe`
(`streamingClient.ts` lines 316-333), as a function of the stream processor
result on the delivered message. The source checks `result && result.completed`
(line 322), so a falsy processor result is embedded as `Option.none`. When
completed: clear the timer, call `cometClient.disconnect()` and resolve with
`result.payload` (lines 323-325). When the processor throws: clear the timer
and reject with the thrown error, with no disconnect (lines 327-332).
Otherwise nothing happens and the timer keeps running. -/
def handleSubscribedMessage {T : Type}
    (res : Except SfdxError (Option (StatusResult T))) : MessageOutcome T :=
  match res with
  | Except.error e =>
    { timerCleared := true
      disconnected := false
      resolution := Option.some (SubscribeResolution.rejected e) }
  | Except.ok r =>
    match r with
    | Option.some st =>
      if st.completed then
        { timerCleared := true
          disconnected := true
          resolution := Option.some (SubscribeResolution.resolved st.payload) }
      else
        { timerCleared := false, disconnected := false, resolution := Option.none }
    | Option.none =>
      { timerCleared := false, disconnected := false, resolution := Option.none }

/-- Steps observable during `subscribe()` in execution order. -/
inductive SubscribeStep where
  | streamInitInvoked
  | timerStarted
  | subscriptionRegistered
  | registrationAcknowledged
  | registrationFailed
  | timerCleared
  | outerRejected
deriving DecidableEq, BEq

/-- The order of operations performed by `StreamingClient.subscribe`
(`streamingClient.ts` lines 296-357), as the source executes them:
`streamInit()` is called first (line 303); in its `.then` continuation the
timer is started (line 306) and the channel subscription is registered with
the transport (line 315); the registration acknowledgment fires
`subscription.callback` (lines 335-337), after which the post-acknowledgment
`.then` body performs no further call (lines 343-347). On registration
failure, `subscription.errback` rejects the inner promise (lines 339-341) and
the `.catch` clears the timer and rejects the outer promise (lines 348-354). -/
def subscribeSteps (registrationAcknowledged : Bool) : List SubscribeStep :=
  SubscribeStep.streamInitInvoked ::
  SubscribeStep.timerStarted ::
  SubscribeStep.subscriptionRegistered ::
  (if registrationAcknowledged then
    [SubscribeStep.registrationAcknowledged]
  else
    [SubscribeStep.registrationFailed, SubscribeStep.timerCleared,
     SubscribeStep.outerRejected])

/-- Position of a step in a `subscribe` step list. -/
def stepIndex (s : SubscribeStep) (l : List SubscribeStep) : Nat :=
  l.findIdx (fun x => x == s)

/-- The access-token check performed by `StreamingClient.init`
(`streamingClient.ts` lines 219-226) after `refreshAuth`: when the token is
present and longer than 5 characters, the `Authorization` header is set to
`OAuth <accessToken>` (line 223); otherwise an `SfdxError` is thrown whose
`name` is the literal string of line 225 — `MissingOrInvalidAcc essToken`,
with a stray space. -/
def initAuthorization (accessToken : Option String) :
    Except SfdxError (String × String) :=
  match accessToken with
  | Option.some t =>
    if 5 < t.length then
      Except.ok ("Authorization", "OAuth " ++ t)
    else
      Except.error
        { message := "Missing or invalid access token"
          name := "MissingOrInvalidAcc essToken" }
  | Option.none =>
    Except.error
      { message := "Missing or invalid access token"
        name := "MissingOrInvalidAcc essToken" }

/-- Modelled from the spec: whitespace characters skipped between JSON tokens. -/
def isJsonWs (c : Char) : Bool :=
  c = ' ' || c = '\n' || c = '\t' || c = '\r'

/-- Modelled from the spec: kinds of lexical tokens of the config document
grammar. -/
inductive JTokKind where
  | lbrace
  | rbrace
  | lbrack
  | rbrack
  | colon
  | comma
  | str
  | num
  | lit
deriving DecidableEq

/-- Modelled from the spec: a lexical token together with the 0-based index of
its first character in the raw text. -/
structure JTok where
  kind : JTokKind
  pos : Nat
deriving DecidableEq

/-- Modelled from the spec: scan the remainder of a quoted string (the opening
quote already consumed), honoring backslash escapes. Returns the rest of the
input and the index just past the closing quote, or `none` when the string is
unterminated. -/
def scanStringRest : List Char → Nat → Option (List Char × Nat)
  | [], _ => Option.none
  | c :: cs, i =>
    if c = '\"' then Option.some (cs, i + 1)
    else if c = '\\' then
      match cs with
      | [] => Option.none
      | _ :: cs2 => scanStringRest cs2 (i + 2)
    else scanStringRest cs (i + 1)

/-- Modelled from the spec: characters that may continue a number lexeme. -/
def isNumChar (c : Char) : Bool :=
  c.isDigit || c = '-' || c = '+' || c = '.' || c = 'e' || c = 'E'

/-- Modelled from the spec: consume the longest prefix satisfying `p`,
returning the rest and the updated index. -/
def scanWhile (p : Char → Bool) : List Char → Nat → List Char × Nat
  | [], i => ([], i)
  | c :: cs, i => if p c then scanWhile p cs (i + 1) else (c :: cs, i)

/-- Modelled from the spec: consume a maximal run of letters, returning the
word, the rest and the updated index. -/
def scanAlpha : List Char → Nat → List Char × List Char × Nat
  | [], i => ([], [], i)
  | c :: cs, i =>
    if c.isAlpha then
      let r := scanAlpha cs (i + 1)
      (c :: r.1, r.2.1, r.2.2)
    else ([], c :: cs, i)

/-- Result of asking the lexer for one more token. -/
inductive NextTokResult where
  | eof (endPos : Nat)
  | tok (t : JTok) (rest : List Char) (next : Nat)

/-- Modelled from the spec: produce the next lexical token, skipping
whitespace. An unrecognizable or unterminated lexeme is a structurally
invalid token and is reported through `Except.error` at its start index. -/
def nextTok : List Char → Nat → Except Nat NextTokResult
  | [], i => Except.ok (NextTokResult.eof i)
  | c :: cs, i =>
    if isJsonWs c then nextTok cs (i + 1)
    else if c = '\x7b' then
      Except.ok (NextTokResult.tok { kind := JTokKind.lbrace, pos := i } cs (i + 1))
    else if c = '\x7d' then
      Except.ok (NextTokResult.tok { kind := JTokKind.rbrace, pos := i } cs (i + 1))
    else if c = '[' then
      Except.ok (NextTokResult.tok { kind := JTokKind.lbrack, pos := i } cs (i + 1))
    else if c = ']' then
      Except.ok (NextTokResult.tok { kind := JTokKind.rbrack, pos := i } cs (i + 1))
    else if c = ':' then
      Except.ok (NextTokResult.tok { kind := JTokKind.colon, pos := i } cs (i + 1))
    else if c = ',' then
      Except.ok (NextTokResult.tok { kind := JTokKind.comma, pos := i } cs (i + 1))
    else if c = '\"' then
      match scanStringRest cs (i + 1) with
      | Option.none => Except.error i
      | Option.some (rest, j) =>
        Except.ok (NextTokResult.tok { kind := JTokKind.str, pos := i } rest j)
    else if c.isDigit || c = '-' then
      let r := scanWhile isNumChar (c :: cs) i
      Except.ok (NextTokResult.tok { kind := JTokKind.num, pos := i } r.1 r.2)
    else if c.isAlpha then
      let r := scanAlpha (c :: cs) i
      if r.1 = "true".toList || r.1 = "false".toList || r.1 = "null".toList then
        Except.ok (NextTokResult.tok { kind := JTokKind.lit, pos := i } r.2.1 r.2.2)
      else Except.error i
    else Except.error i

/-- Modelled from the spec: nesting context of the structural validator. -/
inductive JFrame where
  | obj
  | arr
deriving DecidableEq

/-- Modelled from the spec: what the structural validator expects next. -/
inductive JExpect where
  | value
  | valueOrCloseArr
  | keyOrCloseObj
  | keyObj
  | colonObj
  | commaOrCloseObj
  | commaOrCloseArr
  | done
deriving DecidableEq

/-- Modelled from the spec: what to expect after a complete value, given the
enclosing context. -/
def afterValue (stk : List JFrame) : JExpect :=
  match stk with
  | [] => JExpect.done
  | JFrame.obj :: _ => JExpect.commaOrCloseObj
  | JFrame.arr :: _ => JExpect.commaOrCloseArr

/-- Modelled from the spec: one transition of the structural validator. The
first token that violates the document grammar is reported at its own start
index — in particular a closing brace right after a trailing comma, or where
a value was expected, is itself the structurally invalid token. -/
def jstep (st : JExpect) (stk : List JFrame) (t : JTok) :
    Except Nat (JExpect × List JFrame) :=
  match st with
  | JExpect.value =>
    match t.kind with
    | JTokKind.str => Except.ok (afterValue stk, stk)
    | JTokKind.num => Except.ok (afterValue stk, stk)
    | JTokKind.lit => Except.ok (afterValue stk, stk)
    | JTokKind.lbrace => Except.ok (JExpect.keyOrCloseObj, JFrame.obj :: stk)
    | JTokKind.lbrack => Except.ok (JExpect.valueOrCloseArr, JFrame.arr :: stk)
    | _ => Except.error t.pos
  | JExpect.valueOrCloseArr =>
    match t.kind with
    | JTokKind.rbrack =>
      match stk with
      | JFrame.arr :: rest => Except.ok (afterValue rest, rest)
      | _ => Except.error t.pos
    | JTokKind.str => Except.ok (afterValue stk, stk)
    | JTokKind.num => Except.ok (afterValue stk, stk)
    | JTokKind.lit => Except.ok (afterValue stk, stk)
    | JTokKind.lbrace => Except.ok (JExpect.keyOrCloseObj, JFrame.obj :: stk)
    | JTokKind.lbrack => Except.ok (JExpect.valueOrCloseArr, JFrame.arr :: stk)
    | _ => Except.error t.pos
  | JExpect.keyOrCloseObj =>
    match t.kind with
    | JTokKind.str => Except.ok (JExpect.colonObj, stk)
    | JTokKind.rbrace =>
      match stk with
      | JFrame.obj :: rest => Except.ok (afterValue rest, rest)
      | _ => Except.error t.pos
    | _ => Except.error t.pos
  | JExpect.keyObj =>
    match t.kind with
    | JTokKind.str => Except.ok (JExpect.colonObj, stk)
    | _ => Except.error t.pos
  | JExpect.colonObj =>
    match t.kind with
    | JTokKind.colon => Except.ok (JExpect.value, stk)
    | _ => Except.error t.pos
  | JExpect.commaOrCloseObj =>
    match t.kind with
    | JTokKind.comma => Except.ok (JExpect.keyObj, stk)
    | JTokKind.rbrace =>
      match stk with
      | JFrame.obj :: rest => Except.ok (afterValue rest, rest)
      | _ => Except.error t.pos
    | _ => Except.error t.pos
  | JExpect.commaOrCloseArr =>
    match t.kind with
    | JTokKind.comma => Except.ok (JExpect.value, stk)
    | JTokKind.rbrack =>
      match stk with
      | JFrame.arr :: rest => Except.ok (afterValue rest, rest)
      | _ => Except.error t.pos
    | _ => Except.error t.pos
  | JExpect.done => Except.error t.pos

/-- Modelled from the spec: drive the validator over the raw text, returning
the index of the first structurally invalid token on failure. `fuel` bounds
the recursion; every step consumes at least one character, so an initial fuel
of the input length plus one is always sufficient. -/
def runJson : Nat → JExpect → List JFrame → List Char → Nat → Except Nat Unit
  | 0, _, _, _, i => Except.error i
  | fuel + 1, st, stk, s, i =>
    match nextTok s i with
    | Except.error p => Except.error p
    | Except.ok (NextTokResult.eof j) =>
      if st = JExpect.done then Except.ok () else Except.error j
    | Except.ok (NextTokResult.tok t rest j) =>
      match jstep st stk t with
      | Except.error p => Except.error p
      | Except.ok st2 => runJson fuel st2.1 st2.2 rest j

/-- Modelled from the spec: the 1-based line number of the character at
0-based index `pos` of `content`, counting newline characters in the prefix. -/
def lineOfPos (content : String) (pos : Nat) : Nat :=
  1 + ((content.toList.take pos).filter (fun c => c = '\n')).length

/-- The `ParseError` kind of the error taxonomy: file path, 1-based line
number, and whether the failure was the empty-content case. -/
structure ParseError where
  file : String
  line : Nat
  noContent : Bool
deriving DecidableEq

/-- Modelled from the spec: `SfdxUtil.readJSON` is not under `src/` (only its
unit tests in `DEVELOPING.md` are). Per the spec, empty content fails with a
`ParseError` stating "no content" at line 1; any other malformed content
fails with a `ParseError` naming the file path and the 1-based line number of
the first structurally invalid token, found by scanning the raw text. -/
def readJSON (file : String) (content : String) : Except ParseError Unit :=
  if content = "" then
    Except.error { file := file, line := 1, noContent := true }
  else
    match runJson (content.length + 1) JExpect.value [] content.toList 0 with
    | Except.error p =>
      Except.error { file := file, line := lineOfPos content p, noContent := false }
    | Except.ok _ => Except.ok ()

/-- Credential / row fields as an association list from field name to value. -/
def FieldsMap : Type := List (String × String)

/-- Modelled from the spec: merging a returned row's fields into the
Credential Record — row entries take precedence, remaining credential
entries are kept. -/
def mergeFields (cred row : List (String × String)) : List (String × String) :=
  row ++ cred.filter (fun p => row.all (fun q => q.1 ≠ p.1))

/-- Outcome of the scratch-org registry query issued through the session
handle: either the returned rows, or a query error with its `name` kind. -/
inductive ScratchOrgQuery where
  | records (rows : List (List (String × String)))
  | queryError (name : String)

/-- Modelled from the spec: `Org.checkScratchOrg` is not under `src/` (only
its unit tests are). Per the spec it queries the scratch-org registry object
by organization id: zero rows fails `NoResults`; a query error whose kind is
`INVALID_TYPE` fails `NotADevHub` (any other query error propagates
unmodified); otherwise the returned row's fields are merged into the
Credential Record and returned, so the returned fields equal the session's
credential fields after the merge. -/
def checkScratchOrg (cred : List (String × String)) (q : ScratchOrgQuery) :
    Except SfdxError (List (String × String)) :=
  match q with
  | ScratchOrgQuery.queryError n =>
    if n = "INVALID_TYPE" then
      Except.error { message := "The org is not a devhub", name := "NotADevHub" }
    else
      Except.error { message := "query error", name := n }
  | ScratchOrgQuery.records [] =>
    Except.error { message := "No results found", name := "NoResults" }
  | ScratchOrgQuery.records (row :: _) =>
    Except.ok (mergeFields cred row)

/-- One entry of the platform's API-version discovery response: an object
with a `version` member. -/
structure ApiVersionEntry where
  version : String
deriving DecidableEq

/-- Modelled from the spec: digits of a version component read as a natural
number. -/
def digitsToNat (cs : List Char) : Nat :=
  cs.foldl (fun n c => n * 10 + (c.toNat - 48)) 0

/-- Modelled from the spec: split a version string at its first dot, when it
has one. -/
def splitAtDot : List Char → Option (List Char × List Char)
  | [] => Option.none
  | c :: cs =>
    if c = '.' then Option.some ([], cs)
    else
      match splitAtDot cs with
      | Option.none => Option.none
      | Option.some (w, f) => Option.some (c :: w, f)

/-- Modelled from the spec: the numeric value of a version string such as
`"41.0"`, as a rational number: the integer part plus the fractional part
scaled down by its digit count. -/
def versionVal (s : String) : ℚ :=
  match splitAtDot s.toList with
  | Option.none => mkRat (digitsToNat s.toList) 1
  | Option.some (w, f) =>
    mkRat (digitsToNat w * 10 ^ f.length + digitsToNat f) (10 ^ f.length)

/-- Modelled from the spec: fold keeping the numerically greatest entry seen
so far; the first maximal entry wins ties. -/
def maxVersionEntry (v : ApiVersionEntry) (rest : List ApiVersionEntry) :
    ApiVersionEntry :=
  rest.foldl
    (fun acc e => if versionVal acc.version < versionVal e.version then e else acc) v

/-- Modelled from the spec: `Org.retrieveMaxApiVersion` is not under `src/`
(only its unit test is). Per the spec it queries the platform's exposed
API-version list and returns the numerically greatest version string. -/
def retrieveMaxApiVersion (vs : List ApiVersionEntry) : Option String :=
  match vs with
  | [] => Option.none
  | v :: rest => Option.some (maxVersionEntry v rest).version

/-- Unfolding equation for `maxVersionEntry` on a cons cell. -/
lemma maxVersionEntry_cons (v e : ApiVersionEntry) (t : List ApiVersionEntry) :
    maxVersionEntry v (e :: t) =
      maxVersionEntry (if versionVal v.version < versionVal e.version then e else v) t :=
  rfl

/-- The fold keeping the greatest version entry returns a member of the
candidate list. -/
lemma maxVersionEntry_mem : ∀ (rest : List ApiVersionEntry) (v : ApiVersionEntry),
    maxVersionEntry v rest ∈ v :: rest
  | [], v => by simp [maxVersionEntry]
  | e :: t, v => by
    rw [maxVersionEntry_cons]
    by_cases hc : versionVal v.version < versionVal e.version
    · rw [if_pos hc]
      rcases List.mem_cons.mp (maxVersionEntry_mem t e) with h1 | h1
      · rw [h1]; exact List.mem_cons_of_mem _ (List.mem_cons_self _ _)
      · exact List.mem_cons_of_mem _ (List.mem_cons_of_mem _ h1)
    · rw [if_neg hc]
      rcases List.mem_cons.mp (maxVersionEntry_mem t v) with h1 | h1
      · rw [h1]; exact List.mem_cons_self _ _
      · exact List.mem_cons_of_mem _ (List.mem_cons_of_mem _ h1)

/-- The fold keeping the greatest version entry dominates every candidate. -/
lemma maxVersionEntry_ge : ∀ (rest : List ApiVersionEntry) (v : ApiVersionEntry),
    ∀ x ∈ v :: rest,
      versionVal x.version ≤ versionVal (maxVersionEntry v rest).version
  | [], v => by
    intro x hx
    rcases List.mem_cons.mp hx with h1 | h1
    · rw [h1]; simp [maxVersionEntry]
    · simp at h1
  | e :: t, v => by
    intro x hx
    rw [maxVersionEntry_cons]
    by_cases hc : versionVal v.version < versionVal e.version
    · rw [if_pos hc]
      rcases List.mem_cons.mp hx with h1 | h1
      · rw [h1]
        exact le_trans (le_of_lt hc)
          (maxVersionEntry_ge t e e (List.mem_cons_self _ _))
      · rcases List.mem_cons.mp h1 with h2 | h2
        · rw [h2]; exact maxVersionEntry_ge t e e (List.mem_cons_self _ _)
        · exact maxVersionEntry_ge t e x (List.mem_cons_of_mem _ h2)
    · rw [if_neg hc]
      rcases List.mem_cons.mp hx with h1 | h1
      · rw [h1]; exact maxVersionEntry_ge t v v (List.mem_cons_self _ _)
      · rcases List.mem_cons.mp h1 with h2 | h2
        · rw [h2]
          exact le_trans (le_of_not_lt hc)
            (maxVersionEntry_ge t v v (List.mem_cons_self _ _))
        · exact maxVersionEntry_ge t v x (List.mem_cons_of_mem _ h2)

/-- C1: the claim states the subscribe timer fires after the configured
`subscribeTimeout` (default 3 minutes) and that `handshakeTimeout` plays no
role. The source (`streamingClient.ts` line 312) arms the subscribe timer
with `handshakeTimeout.milliseconds` instead: with the default options the
timer delay is 60000 ms while `subscribeTimeout` is 180000 ms. -/
theorem subscribeTimer_uses_handshakeTimeout :
    (mkDefaultStreamingOptions true "40.0" "/event/Foo" true).map subscribeTimerDelayMs
      = Except.ok 60000
    ∧ (mkDefaultStreamingOptions true "40.0" "/event/Foo" true).map
        (fun o => o.subscribeTimeout.milliseconds) = Except.ok 180000
    ∧ (60000 : Nat) ≠ 180000 :=
  ⟨rfl, rfl, by decide⟩

/-- C2: the claim states the channel subscription is registered first and
`streamInit` is invoked only after the registration acknowledgment. In the
source (`streamingClient.ts` lines 303-347) `streamInit()` is invoked before
the subscription is registered, and hence before any acknowledgment. -/
theorem subscribe_streamInit_before_registration :
    stepIndex SubscribeStep.streamInitInvoked (subscribeSteps true)
      < stepIndex SubscribeStep.subscriptionRegistered (subscribeSteps true)
    ∧ stepIndex SubscribeStep.streamInitInvoked (subscribeSteps true)
      < stepIndex SubscribeStep.registrationAcknowledged (subscribeSteps true) := by
  decide

/-- C3: the claim states `init` fails with an error named exactly
`MissingOrInvalidAccessToken` when the token is absent or implausibly short,
and otherwise sets the `Authorization` header to `OAuth <accessToken>`. The
success branch holds, but the error name in the source
(`streamingClient.ts` line 225) is `MissingOrInvalidAcc essToken`, with a
stray space. -/
theorem init_errorName_has_stray_space :
    (∃ e : SfdxError, initAuthorization Option.none = Except.error e
      ∧ e.name = "MissingOrInvalidAcc essToken"
      ∧ e.name ≠ "MissingOrInvalidAccessToken")
    ∧ initAuthorization (Option.some "sometoken")
      = Except.ok ("Authorization", "OAuth sometoken") := by
  refine ⟨⟨{ message := "Missing or invalid access token",
             name := "MissingOrInvalidAcc essToken" }, rfl, rfl, by decide⟩, rfl⟩

/-- C4: when no handshake response arrives before the timer fires, the client
force-disconnects — closing the dispatcher directly when no client id was
established, issuing a normal disconnect otherwise — and the promise rejects
with a timeout error named by the `HANDSHAKE` tag; on success before the
timer, the timer is cleared and the promise resolves `CONNECTED`. The timer
window is the configured `handshakeTimeout`. -/
theorem handshake_timeout_and_success (o : StreamingOptionsData) (disp : Dispatcher) :
    handshakeTimerDelayMs o = o.handshakeTimeout.milliseconds
    ∧ (∃ e : SfdxError,
        (handshakeOutcome (Option.some disp) HandshakeSignal.timerFires).result
          = Except.error e
        ∧ e.name = StreamingTimeoutError.tag StreamingTimeoutError.HANDSHAKE)
    ∧ (handshakeOutcome (Option.some disp) HandshakeSignal.timerFires).timerCleared = true
    ∧ (disp.clientId = Option.none →
        (handshakeOutcome (Option.some disp) HandshakeSignal.timerFires).disconnect
          = DisconnectAction.closeDispatcher)
    ∧ (disp.clientId ≠ Option.none →
        (handshakeOutcome (Option.some disp) HandshakeSignal.timerFires).disconnect
          = DisconnectAction.clientDisconnect)
    ∧ (handshakeOutcome (Option.some disp) HandshakeSignal.successArrives).timerCleared
        = true
    ∧ (handshakeOutcome (Option.some disp) HandshakeSignal.successArrives).result
        = Except.ok StreamingConnectionState.CONNECTED := by
  refine ⟨rfl, ⟨_, rfl, rfl⟩, rfl, ?_, ?_, rfl, rfl⟩
  · intro h
    simp [handshakeOutcome, disconnectAction, h]
  · intro h
    match hd : disp.clientId with
    | Option.none => exact absurd hd h
    | Option.some c => simp [handshakeOutcome, disconnectAction, hd]

/-- C4 witness: both timeout disconnect branches at concrete dispatchers. -/
theorem handshake_timeout_and_success_witness :
    (handshakeOutcome (Option.some { clientId := Option.none })
        HandshakeSignal.timerFires).disconnect = DisconnectAction.closeDispatcher
    ∧ (handshakeOutcome (Option.some { clientId := Option.some "abc123" })
        HandshakeSignal.timerFires).disconnect = DisconnectAction.clientDisconnect :=
  ⟨(handshake_timeout_and_success
      { apiVersion := "40.0", channel := "/event/Foo"
        subscribeTimeout := { quantity := 3, unit := TIME_UNIT.MINUTES }
        handshakeTimeout := { quantity := 1, unit := TIME_UNIT.MINUTES } }
      { clientId := Option.none }).2.2.2.1 rfl,
   (handshake_timeout_and_success
      { apiVersion := "40.0", channel := "/event/Foo"
        subscribeTimeout := { quantity := 3, unit := TIME_UNIT.MINUTES }
        handshakeTimeout := { quantity := 1, unit := TIME_UNIT.MINUTES } }
      { clientId := Option.some "abc123" }).2.2.2.2.1 (by simp)⟩

/-- C5: a processor result of `completed := false` leaves the message ignored
with the timer still running, while `completed := true` clears the timer,
disconnects the transport, and resolves the outer promise with exactly the
processor's payload. -/
theorem subscribe_message_completion {T : Type} (st : StatusResult T) :
    (st.completed = false →
      handleSubscribedMessage (Except.ok (Option.some st))
        = { timerCleared := false, disconnected := false, resolution := Option.none })
    ∧ (st.completed = true →
      handleSubscribedMessage (Except.ok (Option.some st))
        = { timerCleared := true, disconnected := true,
            resolution := Option.some (SubscribeResolution.resolved st.payload) }) := by
  constructor
  · intro h
    simp [handleSubscribedMessage, h]
  · intro h
    simp [handleSubscribedMessage, h]

/-- C5 witness: both completion branches at concrete processor results,
including the spec's example where payload `"X"` resolves the subscribe. -/
theorem subscribe_message_completion_witness :
    handleSubscribedMessage (T := String)
        (Except.ok (Option.some { completed := false, payload := Option.none }))
      = { timerCleared := false, disconnected := false, resolution := Option.none }
    ∧ handleSubscribedMessage (T := String)
        (Except.ok (Option.some { completed := true, payload := Option.some "X" }))
      = { timerCleared := true, disconnected := true,
          resolution := Option.some (SubscribeResolution.resolved (Option.some "X")) } :=
  ⟨(subscribe_message_completion { completed := false, payload := Option.none }).1 rfl,
   (subscribe_message_completion { completed := true, payload := Option.some "X" }).2 rfl⟩

/-- C6: when the stream processor throws on an inbound message, the timer is
cleared and the outer promise rejects with the thrown error, with no
disconnect issued. -/
theorem subscribe_processor_throw {T : Type} (e : SfdxError) :
    handleSubscribedMessage (T := T) (Except.error e)
      = { timerCleared := true, disconnected := false,
          resolution := Option.some (SubscribeResolution.rejected e) } :=
  rfl

/-- C7: `checkScratchOrg` fails `NoResults` on zero rows, fails `NotADevHub`
on an `INVALID_TYPE` query error, and on a matching row merges the row's
fields into the Credential Record and returns them — in particular, for the
test's empty row the returned fields equal the session's credential fields. -/
theorem checkScratchOrg_outcomes (cred row : List (String × String))
    (rest : List (List (String × String))) :
    (∃ e : SfdxError,
      checkScratchOrg cred (ScratchOrgQuery.records []) = Except.error e
      ∧ e.name = "NoResults")
    ∧ (∃ e : SfdxError,
      checkScratchOrg cred (ScratchOrgQuery.queryError "INVALID_TYPE") = Except.error e
      ∧ e.name = "NotADevHub")
    ∧ checkScratchOrg cred (ScratchOrgQuery.records (row :: rest))
        = Except.ok (mergeFields cred row)
    ∧ checkScratchOrg cred (ScratchOrgQuery.records ([] :: rest)) = Except.ok cred := by
  refine ⟨⟨_, rfl, rfl⟩, ⟨_, rfl, rfl⟩, rfl, ?_⟩
  show Except.ok (mergeFields cred []) = Except.ok cred
  have h : mergeFields cred [] = cred := by
    simp [mergeFields]
  rw [h]

/-- C8: the JSON reader's line reporting on the four documented inputs: empty
content fails at line 1 with the no-content message; the 4-line document with
a trailing comma fails at line 4; the malformed single-line document fails at
line 1; the two-line document with a missing value fails at line 2. -/
theorem readJSON_line_reporting :
    readJSON "emptyfile" ""
      = Except.error { file := "emptyfile", line := 1, noContent := true }
    ∧ readJSON "invalidJSON"
        "\x7b\n                \"key\": 12345,\n                \"value\": true,\n            \x7d"
      = Except.error { file := "invalidJSON", line := 4, noContent := false }
    ∧ readJSON "invalidJSON_no_newline" "\x7b \"key\": 12345, \"value\": [1,2,3], \x7d"
      = Except.error { file := "invalidJSON_no_newline", line := 1, noContent := false }
    ∧ readJSON "invalidJSON2" "\x7b\n\"a\":\x7d"
      = Except.error { file := "invalidJSON2", line := 2, noContent := false } :=
  ⟨rfl, rfl, rfl, rfl⟩

/-- C9: for every non-empty API-version discovery response,
`retrieveMaxApiVersion` returns the version string of an entry of the list
that is numerically greatest among all entries. -/
theorem retrieveMaxApiVersion_max (vs : List ApiVersionEntry) (h : vs ≠ []) :
    ∃ e, e ∈ vs ∧ retrieveMaxApiVersion vs = Option.some e.version
      ∧ ∀ x ∈ vs, versionVal x.version ≤ versionVal e.version := by
  match vs with
  | [] => exact absurd rfl h
  | v :: rest =>
    exact ⟨maxVersionEntry v rest, maxVersionEntry_mem rest v, rfl,
           maxVersionEntry_ge rest v⟩

/-- C9 witness: the spec's example list yields `90.0`. -/
theorem retrieveMaxApiVersion_max_witness :
    (∃ e, e ∈ [ApiVersionEntry.mk "89.0", ApiVersionEntry.mk "90.0", ApiVersionEntry.mk "88.0"]
      ∧ retrieveMaxApiVersion
          [ApiVersionEntry.mk "89.0", ApiVersionEntry.mk "90.0", ApiVersionEntry.mk "88.0"]
        = Option.some e.version
      ∧ ∀ x ∈ [ApiVersionEntry.mk "89.0", ApiVersionEntry.mk "90.0", ApiVersionEntry.mk "88.0"],
          versionVal x.version ≤ versionVal e.version)
    ∧ retrieveMaxApiVersion
        [ApiVersionEntry.mk "89.0", ApiVersionEntry.mk "90.0", ApiVersionEntry.mk "88.0"]
      = Option.some "90.0" :=
  ⟨retrieveMaxApiVersion_max _ (by simp), by decide⟩

/-- C10: a `DefaultStreamingOptions` constructed with an `apiVersion`
starting with `/system` stores `36.0`; any other `apiVersion` is stored
unchanged; and the stored `apiVersion` does not depend on the `channel`
argument. -/
theorem defaultOptions_apiVersion_substitution
    (org proc : Bool) (api ch ch2 : String) (o o2 : StreamingOptionsData)
    (h : mkDefaultStreamingOptions org api ch proc = Except.ok o)
    (h2 : mkDefaultStreamingOptions org api ch2 proc = Except.ok o2) :
    o.apiVersion = o2.apiVersion
    ∧ (lodashStartsWith api "/system" = true → o.apiVersion = "36.0")
    ∧ (lodashStartsWith api "/system" = false → o.apiVersion = api) := by
  unfold mkDefaultStreamingOptions at h h2
  split_ifs at h h2 <;>
    first
      | exact Except.noConfusion h
      | exact Except.noConfusion h2
      | (injection h with h3
         injection h2 with h4
         subst h3
         subst h4
         exact ⟨rfl,
           fun hs => by simp [storedApiVersion, hs],
           fun hs => by simp [storedApiVersion, hs]⟩)

/-- C10 witness: a `/system`-prefixed api version with two different
channels. -/
theorem defaultOptions_apiVersion_substitution_witness :
    ({ apiVersion := "36.0", channel := "/u/a"
       subscribeTimeout := { quantity := 3, unit := TIME_UNIT.MINUTES }
       handshakeTimeout := { quantity := 1, unit := TIME_UNIT.MINUTES } }
        : StreamingOptionsData).apiVersion
      = ({ apiVersion := "36.0", channel := "/u/b"
           subscribeTimeout := { quantity := 3, unit := TIME_UNIT.MINUTES }
           handshakeTimeout := { quantity := 1, unit := TIME_UNIT.MINUTES } }
            : StreamingOptionsData).apiVersion
    ∧ (lodashStartsWith "/systemTopic" "/system" = true →
        ({ apiVersion := "36.0", channel := "/u/a"
           subscribeTimeout := { quantity := 3, unit := TIME_UNIT.MINUTES }
           handshakeTimeout := { quantity := 1, unit := TIME_UNIT.MINUTES } }
            : StreamingOptionsData).apiVersion = "36.0")
    ∧ (lodashStartsWith "/systemTopic" "/system" = false →
        ({ apiVersion := "36.0", channel := "/u/a"
           subscribeTimeout := { quantity := 3, unit := TIME_UNIT.MINUTES }
           handshakeTimeout := { quantity := 1, unit := TIME_UNIT.MINUTES } }
            : StreamingOptionsData).apiVersion = "/systemTopic") :=
  defaultOptions_apiVersion_substitution true true "/systemTopic" "/u/a" "/u/b" _ _ rfl rfl
